import Mathlib

/-!
Shallow embedding of `mibot.go` (mjlshen/mibot), a Slack bot that answers
"kubectl get deploy/po -n NAMESPACE" style chat commands by listing
deployments or pods of a Kubernetes cluster.

Strings are embedded as `List Char`.  The two Go regular expressions
compiled in `main`,

  getDeployRegexp: k(ubectl)? get deploy(ment)?(s)? -n (?P<namespace>.*)
  getPodRegexp:    k(ubectl)? get po(d)?(s)? -n (?P<namespace>.*)

are embedded as concrete matchers (`deployAt` / `podAt` for a match
anchored at a position, `findDeploy` / `findPod` for Go's leftmost
unanchored search).  In these two patterns every optional group is
followed by a literal that cannot begin with the group's own text
("ubectl" vs " get", "ment"/"d" vs " -n"/"s" vs " -n"), so at any
position at most one choice of the optional groups can continue the
match; the greedy (prefer-present) choice used below therefore agrees
with RE2's leftmost-first submatch semantics.  `.` in RE2 does not match
a newline, so the greedy `(?P<namespace>.*)` capture is
`takeWhile (· != '\n')` of the rest of the text.
-/

namespace Mibot

/-- Consume an exact literal from the front of the text: `some rest` on
success, `none` when the text does not start with the literal. -/
def consume : List Char → List Char → Option (List Char)
  | [], cs => some cs
  | _ :: _, [] => none
  | p :: ps, c :: cs => if c = p then consume ps cs else none

/-- Consume an optional literal group `(lit)?` greedily. -/
def consumeOpt (lit cs : List Char) : List Char :=
  match consume lit cs with
  | some rest => rest
  | none => cs

/-- Go's `strings.Contains(hay, needle)`. -/
def containsSub : List Char → List Char → Bool
  | [], needle => (consume needle ([] : List Char)).isSome
  | c :: rest, needle => (consume needle (c :: rest)).isSome || containsSub rest needle

/-- Match of `getDeployRegexp` anchored at the start of `cs`: on success
the Go submatch slice `[whole, group1, group2, group3, namespace]`
(non-participating optional groups are the empty string, as in
`FindStringSubmatch`). -/
def deployAt (cs : List Char) : Option (List (List Char)) :=
  match consume "k".toList cs with
  | none => none
  | some r1 =>
    let g1 : List Char := if (consume "ubectl".toList r1).isSome then "ubectl".toList else []
    let r2 := consumeOpt "ubectl".toList r1
    match consume " get deploy".toList r2 with
    | none => none
    | some r3 =>
      let g2 : List Char := if (consume "ment".toList r3).isSome then "ment".toList else []
      let r4 := consumeOpt "ment".toList r3
      let g3 : List Char := if (consume "s".toList r4).isSome then "s".toList else []
      let r5 := consumeOpt "s".toList r4
      match consume " -n ".toList r5 with
      | none => none
      | some r6 =>
        let ns := r6.takeWhile (fun c => c != '\n')
        let whole := cs.take (cs.length - (r6.length - ns.length))
        some [whole, g1, g2, g3, ns]

/-- Match of `getPodRegexp` anchored at the start of `cs`. -/
def podAt (cs : List Char) : Option (List (List Char)) :=
  match consume "k".toList cs with
  | none => none
  | some r1 =>
    let g1 : List Char := if (consume "ubectl".toList r1).isSome then "ubectl".toList else []
    let r2 := consumeOpt "ubectl".toList r1
    match consume " get po".toList r2 with
    | none => none
    | some r3 =>
      let g2 : List Char := if (consume "d".toList r3).isSome then "d".toList else []
      let r4 := consumeOpt "d".toList r3
      let g3 : List Char := if (consume "s".toList r4).isSome then "s".toList else []
      let r5 := consumeOpt "s".toList r4
      match consume " -n ".toList r5 with
      | none => none
      | some r6 =>
        let ns := r6.takeWhile (fun c => c != '\n')
        let whole := cs.take (cs.length - (r6.length - ns.length))
        some [whole, g1, g2, g3, ns]

/-- Leftmost unanchored search of `getDeployRegexp`, i.e. Go's
`FindStringSubmatch` (`nil` becomes `none`). -/
def findDeploy : List Char → Option (List (List Char))
  | [] => none
  | c :: cs =>
    match deployAt (c :: cs) with
    | some m => some m
    | none => findDeploy cs

/-- Leftmost unanchored search of `getPodRegexp`. -/
def findPod : List Char → Option (List (List Char))
  | [] => none
  | c :: cs =>
    match podAt (c :: cs) with
    | some m => some m
    | none => findPod cs

/-- `getDeployRegexp.MatchString`. -/
def deployMatchString (t : List Char) : Bool := (findDeploy t).isSome

/-- `getPodRegexp.MatchString`. -/
def podMatchString (t : List Char) : Bool := (findPod t).isSome

/-- `getDeployRegexp.SubexpNames()`: the whole-match slot and the three
unnamed groups report the empty name. -/
def deploySubexpNames : List (List Char) := [[], [], [], [], "namespace".toList]

/-- `getPodRegexp.SubexpNames()`. -/
def podSubexpNames : List (List Char) := [[], [], [], [], "namespace".toList]

/-- Go map insertion (overwrite on an existing key). -/
def mapInsert : List (List Char × List Char) → List Char → List Char → List (List Char × List Char)
  | [], k, v => [(k, v)]
  | (k0, v0) :: rest, k, v =>
    if k0 = k then (k, v) :: rest else (k0, v0) :: mapInsert rest k v

/-- Go map lookup; a missing key yields the zero value `""`. -/
def mapLookup : List (List Char × List Char) → List Char → List Char
  | [], _ => []
  | (k0, v0) :: rest, k => if k0 = k then v0 else mapLookup rest k

/-- The loop body of `regexpSubexpMatch`: for every subexpression name of
index `i ≠ 0`, store `match[i]` under that name.  Indexing past the end
of the match slice is a Go runtime panic, embedded as `none`. -/
def subexpLoop (m : List (List Char)) :
    List (List Char) → Nat → List (List Char × List Char) →
      Option (List (List Char × List Char))
  | [], _, acc => some acc
  | nm :: rest, i, acc =>
    if i = 0 then subexpLoop m rest (i + 1) acc
    else
      match m[i]? with
      | none => none
      | some v => subexpLoop m rest (i + 1) (mapInsert acc nm v)

/-- `regexpSubexpMatch(r, str)`: `FindStringSubmatch` (here passed in as
`found`; Go's `nil` slice is `none`, of length 0) indexed by
`SubexpNames`.  `none` is the index-out-of-range panic that a `nil`
match slice would cause. -/
def regexpSubexpMatch (names : List (List Char)) (found : Option (List (List Char))) :
    Option (List (List Char × List Char)) :=
  subexpLoop (found.getD []) names 0 []

/-- The namespace the dispatcher extracts for the deploy branch:
`regexpSubexpMatch(getDeployRegexp, text)["namespace"]`. -/
def deployNs (t : List Char) : List Char :=
  mapLookup ((regexpSubexpMatch deploySubexpNames (findDeploy t)).getD []) "namespace".toList

/-- The namespace the dispatcher extracts for the pod branch. -/
def podNs (t : List Char) : List Char :=
  mapLookup ((regexpSubexpMatch podSubexpNames (findPod t)).getD []) "namespace".toList

/-- A container status; `running` embeds `container.State.Running != nil`. -/
structure ContainerStatus where
  running : Bool
deriving DecidableEq

/-- `po.Status`: the phase string and the container status list. -/
structure PodStatus where
  phase : List Char
  containerStatuses : List ContainerStatus
deriving DecidableEq

/-- `po.Spec`: the declared container count.  `mibot.go` never reads it;
it is carried only so that statements about "declared containers" can be
compared with what the code prints. -/
structure PodSpec where
  containers : Nat
deriving DecidableEq

/-- A pod as used by the dispatcher. -/
structure Pod where
  name : List Char
  spec : PodSpec
  status : PodStatus
deriving DecidableEq

/-- A deployment; only its name is used. -/
structure Deployment where
  name : List Char
deriving DecidableEq

/-- The orchestration clientset, restricted to the two list calls the
dispatcher makes: both may fail with an error. -/
structure Cluster where
  deployments : List Char → Except (List Char) (List Deployment)
  pods : List Char → Except (List Char) (List Pod)

/-- `strconv.Itoa` on the (non-negative) counters of the dispatcher. -/
def itoa (n : Nat) : List Char := (Nat.repr n).toList

/-- The `runningContainers` counter loop of the pod branch. -/
def runningContainers (po : Pod) : Nat :=
  po.status.containerStatuses.foldl (fun acc c => if c.running then acc + 1 else acc) 0

/-- One line the pod branch writes for a pod. -/
def podLine (po : Pod) : List Char :=
  po.name ++ "\t".toList ++ po.status.phase ++ "\t".toList ++
    itoa (runningContainers po) ++ "/".toList ++
    itoa po.status.containerStatuses.length ++ "\n".toList

/-- The full pod reply built in the `strings.Builder`. -/
def podsReply (l : List Pod) : List Char :=
  "```\n".toList ++ (l.map podLine).flatten ++ "```".toList

/-- One line the deploy branch writes for a deployment. -/
def deployLine (d : Deployment) : List Char := d.name ++ "\n".toList

/-- The full deployment reply built in the `strings.Builder`. -/
def deploysReply (l : List Deployment) : List Char :=
  "```\n".toList ++ (l.map deployLine).flatten ++ "```".toList

/-- The fixed usage block of the help branch. -/
def helpReply : List Char :=
  "```\nkubectl get deploy -n $namespace\nkubectl get po -n $namespace\n```".toList

/-- The fixed fallback reply. -/
def fallbackReply : List Char :=
  "I\x27m mibot. I\x27m alive, but idk what you want from me! Try help? :narwhal-dancing:".toList

/-- `botTagString`: `fmt.Sprintf("<@%s>", rtm.GetInfo().User.ID)`. -/
def botTag (botID : List Char) : List Char := "<@".toList ++ botID ++ ">".toList

/-- Which `elif` arm of the message handler ran. -/
inductive Branch where
  | deployments
  | pods
  | help
  | fallback
deriving DecidableEq

/-- An orchestration list call issued by the dispatcher. -/
inductive Query where
  | listDeployments (ns : List Char)
  | listPods (ns : List Char)
deriving DecidableEq

/-- The observable result of handling one `MessageEvent`:
either the event is ignored (mention absent), or one reply is sent, or
the process panics — on a failed list call (`panicked`) or on the
out-of-range indexing inside `regexpSubexpMatch` (`panickedIdx`). -/
inductive Outcome where
  | ignored
  | sent (b : Branch) (q : Option Query) (text channel : List Char)
  | panicked (b : Branch) (q : Query) (err : List Char)
  | panickedIdx (b : Branch)
deriving DecidableEq

/-- The orchestration queries the handling of one message performed. -/
def Outcome.queries : Outcome → List Query
  | .ignored => []
  | .sent _ q _ _ => q.toList
  | .panicked _ q _ => [q]
  | .panickedIdx _ => []

/-- The chat replies (text, channel) the handling of one message sent. -/
def Outcome.replies : Outcome → List (List Char × List Char)
  | .sent _ _ t ch => [(t, ch)]
  | _ => []

/-- The arm that handled the message, if any. -/
def Outcome.branch : Outcome → Option Branch
  | .ignored => none
  | .sent b _ _ _ => some b
  | .panicked b _ _ => some b
  | .panickedIdx b => some b

/-- Did handling this message abort the process? -/
def Outcome.isPanic : Outcome → Bool
  | .panicked _ _ _ => true
  | .panickedIdx _ => true
  | _ => false

/-- The `*slack.MessageEvent` case of the dispatch loop: mention filter,
then the `elif` chain deploy-regexp / pod-regexp / "help" / fallback. -/
def handleMessage (cl : Cluster) (botID text channel : List Char) : Outcome :=
  if containsSub text (botTag botID) = false then .ignored
  else if deployMatchString text then
    match regexpSubexpMatch deploySubexpNames (findDeploy text) with
    | none => .panickedIdx .deployments
    | some args =>
      let ns := mapLookup args "namespace".toList
      match cl.deployments ns with
      | .error e => .panicked .deployments (.listDeployments ns) e
      | .ok l => .sent .deployments (some (.listDeployments ns)) (deploysReply l) channel
  else if podMatchString text then
    match regexpSubexpMatch podSubexpNames (findPod text) with
    | none => .panickedIdx .pods
    | some args =>
      let ns := mapLookup args "namespace".toList
      match cl.pods ns with
      | .error e => .panicked .pods (.listPods ns) e
      | .ok l => .sent .pods (some (.listPods ns)) (podsReply l) channel
  else if containsSub text "help".toList then
    .sent .help none helpReply channel
  else
    .sent .fallback none fallbackReply channel

/-- The tagged event variants of `msg.Data` that the type switch
distinguishes. -/
inductive SlackEvent where
  | hello
  | connected
  | message (text channel : List Char)
  | presenceChange
  | latencyReport
  | desktopNotification
  | rtmError
  | invalidAuth
  | unknown
deriving DecidableEq

/-- Is this the `*slack.MessageEvent` variant? -/
def SlackEvent.isMessage : SlackEvent → Bool
  | .message _ _ => true
  | _ => false

/-- What the loop body does with control after one event: continue with
the next event, leave the loop (`return`), or abort the process
(a propagating `panic`). -/
inductive Control where
  | next
  | stop
  | abort
deriving DecidableEq

/-- One iteration of the dispatch loop: control flow, number of
`fmt.Printf` diagnostic lines written, and the message outcome (only
`MessageEvent`s have one). -/
structure StepResult where
  control : Control
  logs : Nat
  out : Option Outcome
deriving DecidableEq

/-- Diagnostic lines of the message case: the deploy and pod branches
`fmt.Printf` the formatted reply before sending it. -/
def msgLogs : Outcome → Nat
  | .sent .deployments _ _ _ => 1
  | .sent .pods _ _ _ => 1
  | _ => 0

/-- One iteration of the `for msg := range rtm.IncomingEvents` type
switch. -/
def step (cl : Cluster) (botID : List Char) : SlackEvent → StepResult
  | .hello => ⟨.next, 0, none⟩
  | .connected => ⟨.next, 0, none⟩
  | .message text channel =>
    let o := handleMessage cl botID text channel
    ⟨if o.isPanic then .abort else .next, msgLogs o, some o⟩
  | .presenceChange => ⟨.next, 1, none⟩
  | .latencyReport => ⟨.next, 1, none⟩
  | .desktopNotification => ⟨.next, 1, none⟩
  | .rtmError => ⟨.next, 1, none⟩
  | .invalidAuth => ⟨.stop, 1, none⟩
  | .unknown => ⟨.next, 0, none⟩

/-- The dispatch loop run over a finite event trace: the list of message
outcomes, in order.  `invalidAuth` returns from the loop; a panic aborts
the process, so later events are never handled. -/
def runLoop (cl : Cluster) (botID : List Char) : List SlackEvent → List Outcome
  | [] => []
  | ev :: rest =>
    match ev with
    | .message text channel =>
      let o := handleMessage cl botID text channel
      if o.isPanic then [o] else o :: runLoop cl botID rest
    | .invalidAuth => []
    | _ => runLoop cl botID rest

/-- A concrete bot user id for closed test inputs. -/
def bid : List Char := "U123".toList

/-- A concrete channel id for closed test inputs. -/
def chan : List Char := "C1".toList

/-- The mocked deployments of namespace "prod". -/
def prodDeployments : List Deployment := [⟨"api".toList⟩, ⟨"worker".toList⟩]

/-- A mocked cluster answering namespace "prod" with `{"api", "worker"}`. -/
def prodCluster : Cluster :=
  ⟨fun ns => if ns = "prod".toList then .ok prodDeployments else .error "not found".toList,
   fun _ => .ok []⟩

/-- A mocked cluster whose list calls always fail. -/
def errCluster : Cluster :=
  ⟨fun _ => .error "boom".toList, fun _ => .error "boom".toList⟩

/-- A mocked cluster whose list calls always return empty lists. -/
def emptyCluster : Cluster :=
  ⟨fun _ => .ok [], fun _ => .ok []⟩

/-- A pod named "api-1", phase "Running", 3 declared containers, all
three with a status, 2 of them running. -/
def apiPod : Pod := ⟨"api-1".toList, ⟨3⟩, ⟨"Running".toList, [⟨true⟩, ⟨true⟩, ⟨false⟩]⟩⟩

/-- A pod with 3 declared containers of which only 2 have a status yet
(both running): declared count and status count differ. -/
def laggingPod : Pod := ⟨"api-1".toList, ⟨3⟩, ⟨"Running".toList, [⟨true⟩, ⟨true⟩]⟩⟩

/-- Modelled from the spec: the pod reply line as the specification
words it, with the total taken from the declared container count
(`po.spec.containers`) instead of the container status list the code
uses. -/
def claimedPodLine (po : Pod) : List Char :=
  po.name ++ "\t".toList ++ po.status.phase ++ "\t".toList ++
    itoa (runningContainers po) ++ "/".toList ++
    itoa po.spec.containers ++ "\n".toList

/-- A greedy `.*` capture over newline-free text takes the whole rest. -/
theorem takeWhile_no_newline (X : List Char) (h : '\n' ∉ X) :
    X.takeWhile (fun c => c != '\n') = X := by
  induction X with
  | nil => rfl
  | cons c cs ih =>
    simp only [List.mem_cons, not_or] at h
    have hc : (c != '\n') = true := by
      simp only [bne_iff_ne, ne_eq]
      exact fun e => h.1 e.symm
    simp [List.takeWhile, hc, ih h.2]

/-- A list of length 5 is a quintuple. -/
theorem list_len5 {α : Type} (m : List α) (h : m.length = 5) :
    ∃ a b c d e, m = [a, b, c, d, e] := by
  cases m with
  | nil => simp at h
  | cons a t0 =>
    cases t0 with
    | nil => simp at h
    | cons b t1 =>
      cases t1 with
      | nil => simp at h
      | cons c t2 =>
        cases t2 with
        | nil => simp at h
        | cons d t3 =>
          cases t3 with
          | nil => simp at h
          | cons e t4 =>
            cases t4 with
            | nil => exact ⟨a, b, c, d, e, rfl⟩
            | cons f t5 => simp only [List.length_cons] at h; omega

/-- A successful anchored deploy match always yields all 5 submatch
slots. -/
theorem deployAt_len (cs : List Char) (m : List (List Char)) (h : deployAt cs = some m) :
    m.length = 5 := by
  unfold deployAt at h
  dsimp only at h
  repeat' split at h
  any_goals simp_all
  all_goals (rw [← h]; rfl)

/-- A successful anchored pod match always yields all 5 submatch slots. -/
theorem podAt_len (cs : List Char) (m : List (List Char)) (h : podAt cs = some m) :
    m.length = 5 := by
  unfold podAt at h
  dsimp only at h
  repeat' split at h
  any_goals simp_all
  all_goals (rw [← h]; rfl)

/-- `FindStringSubmatch` of the deploy regexp, when non-nil, has exactly
5 entries. -/
theorem findDeploy_len (t : List Char) (m : List (List Char)) (h : findDeploy t = some m) :
    m.length = 5 := by
  induction t with
  | nil => simp [findDeploy] at h
  | cons c cs ih =>
    unfold findDeploy at h
    split at h
    · cases h; exact deployAt_len _ _ (by assumption)
    · exact ih h

/-- `FindStringSubmatch` of the pod regexp, when non-nil, has exactly 5
entries. -/
theorem findPod_len (t : List Char) (m : List (List Char)) (h : findPod t = some m) :
    m.length = 5 := by
  induction t with
  | nil => simp [findPod] at h
  | cons c cs ih =>
    unfold findPod at h
    split at h
    · cases h; exact podAt_len _ _ (by assumption)
    · exact ih h

/-- `regexpSubexpMatch` on a full 5-slot deploy match: the three unnamed
groups pile up under the empty name and `"namespace"` maps to slot 4. -/
theorem subexp_deploy (a b c d e : List Char) :
    regexpSubexpMatch deploySubexpNames (some [a, b, c, d, e]) =
      some [([], d), ("namespace".toList, e)] := rfl

/-- `regexpSubexpMatch` on a full 5-slot pod match. -/
theorem subexp_pod (a b c d e : List Char) :
    regexpSubexpMatch podSubexpNames (some [a, b, c, d, e]) =
      some [([], d), ("namespace".toList, e)] := rfl

/-- Looking up `"namespace"` in the map built from a 5-slot match gives
slot 4. -/
theorem lookup_ns (d e : List Char) :
    mapLookup [([], d), ("namespace".toList, e)] "namespace".toList = e := rfl

/-- The namespace the dispatcher extracts from a deploy match is the
greedy capture slot. -/
theorem deployNs_eq (t a g1 g2 g3 e : List Char)
    (hfd : findDeploy t = some [a, g1, g2, g3, e]) : deployNs t = e := by
  unfold deployNs
  rw [hfd, subexp_deploy]
  rfl

/-- The namespace the dispatcher extracts from a pod match is the greedy
capture slot. -/
theorem podNs_eq (t a g1 g2 g3 e : List Char)
    (hfp : findPod t = some [a, g1, g2, g3, e]) : podNs t = e := by
  unfold podNs
  rw [hfp, subexp_pod]
  rfl

/-- Evaluation of the message handler on the deploy branch. -/
theorem handleMessage_deploy (cl : Cluster) (b t ch a g1 g2 g3 e : List Char)
    (hm : containsSub t (botTag b) = true)
    (hfd : findDeploy t = some [a, g1, g2, g3, e]) :
    handleMessage cl b t ch =
      match cl.deployments e with
      | .error er => .panicked .deployments (.listDeployments e) er
      | .ok l => .sent .deployments (some (.listDeployments e)) (deploysReply l) ch := by
  simp only [handleMessage, hm, deployMatchString, hfd, subexp_deploy,
    Option.isSome_some, if_true, Bool.true_eq_false, if_false, reduceCtorEq, ite_false]
  rfl

/-- Evaluation of the message handler on the pod branch. -/
theorem handleMessage_pod (cl : Cluster) (b t ch a g1 g2 g3 e : List Char)
    (hm : containsSub t (botTag b) = true)
    (hd : findDeploy t = none)
    (hfp : findPod t = some [a, g1, g2, g3, e]) :
    handleMessage cl b t ch =
      match cl.pods e with
      | .error er => .panicked .pods (.listPods e) er
      | .ok l => .sent .pods (some (.listPods e)) (podsReply l) ch := by
  simp only [handleMessage, hm, deployMatchString, podMatchString, hd, hfp, subexp_pod,
    Option.isSome_some, Option.isSome_none, if_true, Bool.true_eq_false, Bool.false_eq_true,
    if_false, reduceCtorEq, ite_false]
  rfl

/-- Evaluation of the message handler past both regexp guards. -/
theorem handleMessage_help_fallback (cl : Cluster) (b t ch : List Char)
    (hm : containsSub t (botTag b) = true)
    (hd : findDeploy t = none) (hp : findPod t = none) :
    handleMessage cl b t ch =
      if containsSub t "help".toList then Outcome.sent .help none helpReply ch
      else Outcome.sent .fallback none fallbackReply ch := by
  simp [handleMessage, hm, deployMatchString, podMatchString, hd, hp]

/-- Branch and query of the deploy branch, whatever the cluster answers. -/
theorem handleMessage_deploy_bq (cl : Cluster) (b t ch a g1 g2 g3 e : List Char)
    (hm : containsSub t (botTag b) = true)
    (hfd : findDeploy t = some [a, g1, g2, g3, e]) :
    (handleMessage cl b t ch).branch = some Branch.deployments
      ∧ (handleMessage cl b t ch).queries = [Query.listDeployments e] := by
  rw [handleMessage_deploy cl b t ch a g1 g2 g3 e hm hfd]
  cases cl.deployments e <;> simp [Outcome.branch, Outcome.queries]

/-- Branch and query of the pod branch, whatever the cluster answers. -/
theorem handleMessage_pod_bq (cl : Cluster) (b t ch a g1 g2 g3 e : List Char)
    (hm : containsSub t (botTag b) = true)
    (hd : findDeploy t = none)
    (hfp : findPod t = some [a, g1, g2, g3, e]) :
    (handleMessage cl b t ch).branch = some Branch.pods
      ∧ (handleMessage cl b t ch).queries = [Query.listPods e] := by
  rw [handleMessage_pod cl b t ch a g1 g2 g3 e hm hd hfp]
  cases cl.pods e <;> simp [Outcome.branch, Outcome.queries]

/-- Auxiliary bound for the running-container counter loop. -/
theorem foldl_running_le (l : List ContainerStatus) :
    ∀ acc : Nat, l.foldl (fun a c => if c.running then a + 1 else a) acc ≤ acc + l.length := by
  induction l with
  | nil => intro acc; simp
  | cons c cs ih =>
    intro acc
    simp only [List.foldl_cons, List.length_cons]
    cases hc : c.running
    · simp only [hc, Bool.false_eq_true, reduceIte]
      exact le_trans (ih acc) (by omega)
    · simp only [hc, reduceIte]
      exact le_trans (ih (acc + 1)) (by omega)

/-- C4: a message whose text does not contain the bot mention token is
ignored entirely: no reply is sent and no orchestration query is made. -/
theorem C4_mention_filter (cl : Cluster) (b t ch : List Char)
    (h : containsSub t (botTag b) = false) :
    handleMessage cl b t ch = Outcome.ignored
      ∧ (handleMessage cl b t ch).queries = []
      ∧ (handleMessage cl b t ch).replies = [] := by
  have he : handleMessage cl b t ch = Outcome.ignored := by
    simp [handleMessage, h]
  exact ⟨he, by rw [he]; rfl, by rw [he]; rfl⟩

/-- C4 witness at a concrete unaddressed message. -/
theorem C4_witness :
    containsSub "hello world".toList (botTag bid) = false
      ∧ handleMessage emptyCluster bid "hello world".toList chan = Outcome.ignored :=
  ⟨by decide, (C4_mention_filter emptyCluster bid "hello world".toList chan (by decide)).1⟩

/-- C8: dispatching the same message event twice against the same cluster
state yields the same outcome, hence byte-identical replies, both times. -/
theorem C8_idempotent_replies (cl : Cluster) (b t ch : List Char) (rest : List SlackEvent)
    (h : (handleMessage cl b t ch).isPanic = false) :
    runLoop cl b (SlackEvent.message t ch :: SlackEvent.message t ch :: rest)
      = handleMessage cl b t ch :: handleMessage cl b t ch :: runLoop cl b rest := by
  simp [runLoop, h]

/-- C8 witness: the same help command handled twice in a row. -/
theorem C8_witness :
    (handleMessage emptyCluster bid "<@U123> help".toList chan).isPanic = false
      ∧ runLoop emptyCluster bid
          [SlackEvent.message "<@U123> help".toList chan,
            SlackEvent.message "<@U123> help".toList chan]
        = handleMessage emptyCluster bid "<@U123> help".toList chan
            :: handleMessage emptyCluster bid "<@U123> help".toList chan
            :: runLoop emptyCluster bid [] :=
  ⟨by decide, C8_idempotent_replies emptyCluster bid "<@U123> help".toList chan [] (by decide)⟩

/-- C10: in every pod reply line, running ≤ total, because the running
count and the total printed by `podLine` are both computed from the same
container status list. -/
theorem C10_running_bounds (po : Pod) :
    runningContainers po ≤ po.status.containerStatuses.length
      ∧ podLine po
          = po.name ++ "\t".toList ++ po.status.phase ++ "\t".toList
              ++ itoa (runningContainers po) ++ "/".toList
              ++ itoa po.status.containerStatuses.length ++ "\n".toList := by
  refine ⟨?_, rfl⟩
  simpa [runningContainers] using foldl_running_le po.status.containerStatuses 0

/-- C7: among all event variants only invalid-auth makes the loop return;
every non-message variant sends no reply, logs at most one diagnostic
line and never aborts; after invalid-auth no further event is handled. -/
theorem C7_loop_termination (cl : Cluster) (b : List Char) :
    (∀ ev : SlackEvent, (step cl b ev).control = Control.stop ↔ ev = SlackEvent.invalidAuth)
      ∧ (∀ ev : SlackEvent, ev.isMessage = false →
          (step cl b ev).out = none ∧ (step cl b ev).logs ≤ 1
            ∧ (step cl b ev).control ≠ Control.abort
            ∧ (ev = SlackEvent.invalidAuth ∨ (step cl b ev).control = Control.next))
      ∧ (∀ rest : List SlackEvent, runLoop cl b (SlackEvent.invalidAuth :: rest) = []) := by
  refine ⟨?_, ?_, ?_⟩
  · intro ev
    cases ev
    case message t ch =>
      simp only [step]
      cases hp : (handleMessage cl b t ch).isPanic <;> simp [hp]
    all_goals simp [step]
  · intro ev hnm
    cases ev
    case message t ch => simp [SlackEvent.isMessage] at hnm
    all_goals simp [step]
  · intro rest
    rfl

/-- C7 witness: a transport error keeps the loop running with no reply;
invalid-auth is exactly the stopping event. -/
theorem C7_witness :
    SlackEvent.rtmError.isMessage = false
      ∧ (step emptyCluster bid SlackEvent.rtmError).out = none
      ∧ ((step emptyCluster bid SlackEvent.invalidAuth).control = Control.stop
          ↔ SlackEvent.invalidAuth = SlackEvent.invalidAuth) :=
  ⟨by decide, ((C7_loop_termination emptyCluster bid).2.1 SlackEvent.rtmError (by decide)).1,
    (C7_loop_termination emptyCluster bid).1 SlackEvent.invalidAuth⟩

/-- C9: whenever `MatchString` accepts, `FindStringSubmatch` is non-nil
with one slot per subexpression name, so the indexing loop of
`regexpSubexpMatch` stays in bounds; consequently the dispatcher, which
only calls it under the `MatchString` guard, can never hit the index
panic. -/
theorem C9_submatch_safety (t : List Char) :
    (deployMatchString t = true →
        ∃ m, findDeploy t = some m ∧ m.length = deploySubexpNames.length
          ∧ (regexpSubexpMatch deploySubexpNames (findDeploy t)).isSome = true)
      ∧ (podMatchString t = true →
        ∃ m, findPod t = some m ∧ m.length = podSubexpNames.length
          ∧ (regexpSubexpMatch podSubexpNames (findPod t)).isSome = true)
      ∧ (∀ (cl : Cluster) (b ch : List Char) (br : Branch),
          handleMessage cl b t ch ≠ Outcome.panickedIdx br) := by
  refine ⟨?_, ?_, ?_⟩
  · intro hd
    rcases hfd : findDeploy t with _ | m
    · rw [deployMatchString, hfd] at hd; simp at hd
    · obtain ⟨a, g1, g2, g3, e, rfl⟩ := list_len5 m (findDeploy_len t m hfd)
      exact ⟨_, rfl, rfl, rfl⟩
  · intro hp
    rcases hfp : findPod t with _ | m
    · rw [podMatchString, hfp] at hp; simp at hp
    · obtain ⟨a, g1, g2, g3, e, rfl⟩ := list_len5 m (findPod_len t m hfp)
      exact ⟨_, rfl, rfl, rfl⟩
  · intro cl b ch br
    rcases hcs : containsSub t (botTag b) with _ | _
    · simp [handleMessage, hcs]
    · rcases hfd : findDeploy t with _ | m
      · rcases hfp : findPod t with _ | m
        · rw [handleMessage_help_fallback cl b t ch hcs hfd hfp]
          cases hh : containsSub t "help".toList <;> simp
        · obtain ⟨a, g1, g2, g3, e, rfl⟩ := list_len5 m (findPod_len t m hfp)
          rw [handleMessage_pod cl b t ch a g1 g2 g3 e hcs hfd hfp]
          cases cl.pods e <;> simp
      · obtain ⟨a, g1, g2, g3, e, rfl⟩ := list_len5 m (findDeploy_len t m hfd)
        rw [handleMessage_deploy cl b t ch a g1 g2 g3 e hcs hfd]
        cases cl.deployments e <;> simp

/-- C9 witness at a concrete matching command text. -/
theorem C9_witness :
    deployMatchString "k get deploy -n x".toList = true
      ∧ ∃ m, findDeploy "k get deploy -n x".toList = some m
          ∧ m.length = deploySubexpNames.length
          ∧ (regexpSubexpMatch deploySubexpNames
              (findDeploy "k get deploy -n x".toList)).isSome = true :=
  ⟨by decide, (C9_submatch_safety "k get deploy -n x".toList).1 (by decide)⟩

/-- C6: when the orchestration list call of a matched command fails, the
handler panics with the failed query (the step aborts the process) and
no reply is sent. -/
theorem C6_fail_fast (cl : Cluster) (b t ch errMsg : List Char)
    (hm : containsSub t (botTag b) = true) :
    (deployMatchString t = true →
        cl.deployments (deployNs t) = .error errMsg →
        handleMessage cl b t ch
            = Outcome.panicked .deployments (.listDeployments (deployNs t)) errMsg
          ∧ (handleMessage cl b t ch).replies = []
          ∧ (step cl b (.message t ch)).control = Control.abort)
      ∧ (deployMatchString t = false → podMatchString t = true →
        cl.pods (podNs t) = .error errMsg →
        handleMessage cl b t ch = Outcome.panicked .pods (.listPods (podNs t)) errMsg
          ∧ (handleMessage cl b t ch).replies = []
          ∧ (step cl b (.message t ch)).control = Control.abort) := by
  constructor
  · intro hdm herr
    rcases hfd : findDeploy t with _ | m
    · rw [deployMatchString, hfd] at hdm; simp at hdm
    · obtain ⟨a, g1, g2, g3, e, rfl⟩ := list_len5 m (findDeploy_len t m hfd)
      have hns := deployNs_eq t a g1 g2 g3 e hfd
      rw [hns] at herr ⊢
      have he := handleMessage_deploy cl b t ch a g1 g2 g3 e hm hfd
      rw [herr] at he
      exact ⟨he, by rw [he]; rfl, by simp [step, he, Outcome.isPanic]⟩
  · intro hdm hpm herr
    rcases hfd : findDeploy t with _ | m
    · rcases hfp : findPod t with _ | m
      · rw [podMatchString, hfp] at hpm; simp at hpm
      · obtain ⟨a, g1, g2, g3, e, rfl⟩ := list_len5 m (findPod_len t m hfp)
        have hns := podNs_eq t a g1 g2 g3 e hfp
        rw [hns] at herr ⊢
        have he := handleMessage_pod cl b t ch a g1 g2 g3 e hm hfd hfp
        rw [herr] at he
        exact ⟨he, by rw [he]; rfl, by simp [step, he, Outcome.isPanic]⟩
    · rw [deployMatchString, hfd] at hdm; simp at hdm

/-- C6 witness: a failing cluster on a concrete deploy command. -/
theorem C6_witness :
    containsSub "<@U123> kubectl get deploy -n prod".toList (botTag bid) = true
      ∧ deployMatchString "<@U123> kubectl get deploy -n prod".toList = true
      ∧ errCluster.deployments (deployNs "<@U123> kubectl get deploy -n prod".toList)
          = .error "boom".toList
      ∧ handleMessage errCluster bid "<@U123> kubectl get deploy -n prod".toList chan
          = Outcome.panicked .deployments
              (.listDeployments (deployNs "<@U123> kubectl get deploy -n prod".toList))
              "boom".toList :=
  ⟨by decide, by decide, rfl,
    ((C6_fail_fast errCluster bid "<@U123> kubectl get deploy -n prod".toList chan
        "boom".toList (by decide)).1 (by decide) rfl).1⟩

/-- C5 (amended): for every addressed message the arm is chosen by the
fixed priority order deploy / pod / help / fallback, mutually
exclusively, and whenever the chosen arm does not panic, exactly one
reply is sent, to the arriving channel.  (A failed list call panics and
sends nothing, which is why the one-reply part needs the proviso.) -/
theorem C5_priority_single_reply (cl : Cluster) (b t ch : List Char)
    (hm : containsSub t (botTag b) = true) :
    ((handleMessage cl b t ch).isPanic = false →
        ∃ br q txt, handleMessage cl b t ch = Outcome.sent br q txt ch)
      ∧ (deployMatchString t = true →
        (handleMessage cl b t ch).branch = some Branch.deployments)
      ∧ (deployMatchString t = false → podMatchString t = true →
        (handleMessage cl b t ch).branch = some Branch.pods)
      ∧ (deployMatchString t = false → podMatchString t = false →
        containsSub t "help".toList = true →
        handleMessage cl b t ch = Outcome.sent Branch.help none helpReply ch)
      ∧ (deployMatchString t = false → podMatchString t = false →
        containsSub t "help".toList = false →
        handleMessage cl b t ch = Outcome.sent Branch.fallback none fallbackReply ch) := by
  rcases hfd : findDeploy t with _ | m
  · have hdm : deployMatchString t = false := by rw [deployMatchString, hfd]; rfl
    rcases hfp : findPod t with _ | m
    · have he := handleMessage_help_fallback cl b t ch hm hfd hfp
      refine ⟨?_, ?_, ?_, ?_, ?_⟩
      · intro _
        rw [he]
        cases hh : containsSub t "help".toList
        · exact ⟨Branch.fallback, none, fallbackReply, rfl⟩
        · exact ⟨Branch.help, none, helpReply, rfl⟩
      · intro h2; rw [hdm] at h2; exact absurd h2 (by simp)
      · intro _ h3; rw [podMatchString, hfp] at h3; exact absurd h3 (by simp)
      · intro _ _ hh; rw [he, hh]; simp
      · intro _ _ hh; rw [he, hh]; simp
    · obtain ⟨a, g1, g2, g3, e, rfl⟩ := list_len5 m (findPod_len t m hfp)
      have he := handleMessage_pod cl b t ch a g1 g2 g3 e hm hfd hfp
      refine ⟨?_, ?_, ?_, ?_, ?_⟩
      · intro hnp
        rcases hpo : cl.pods e with er | l
        · rw [he] at hnp
          rw [hpo] at hnp
          exact absurd (show true = false from hnp) (by simp)
        · rw [he, hpo]
          exact ⟨_, _, _, rfl⟩
      · intro h2; rw [hdm] at h2; exact absurd h2 (by simp)
      · intro _ _
        exact (handleMessage_pod_bq cl b t ch a g1 g2 g3 e hm hfd hfp).1
      · intro _ h3
        rw [podMatchString, hfp] at h3; exact absurd h3 (by simp)
      · intro _ h3
        rw [podMatchString, hfp] at h3; exact absurd h3 (by simp)
  · obtain ⟨a, g1, g2, g3, e, rfl⟩ := list_len5 m (findDeploy_len t m hfd)
    have he := handleMessage_deploy cl b t ch a g1 g2 g3 e hm hfd
    have hdm : deployMatchString t = true := by rw [deployMatchString, hfd]; rfl
    refine ⟨?_, ?_, ?_, ?_, ?_⟩
    · intro hnp
      rcases hde : cl.deployments e with er | l
      · rw [he] at hnp
        rw [hde] at hnp
        exact absurd (show true = false from hnp) (by simp)
      · rw [he, hde]
        exact ⟨_, _, _, rfl⟩
    · intro _
      exact (handleMessage_deploy_bq cl b t ch a g1 g2 g3 e hm hfd).1
    · intro h2 _; rw [hdm] at h2; exact absurd h2 (by simp)
    · intro h2 _ _; rw [hdm] at h2; exact absurd h2 (by simp)
    · intro h2 _ _; rw [hdm] at h2; exact absurd h2 (by simp)

/-- C5 witness: an addressed unrecognized message gets exactly the
fallback reply on the arriving channel. -/
theorem C5_witness :
    containsSub "<@U123> yo".toList (botTag bid) = true
      ∧ deployMatchString "<@U123> yo".toList = false
      ∧ podMatchString "<@U123> yo".toList = false
      ∧ containsSub "<@U123> yo".toList "help".toList = false
      ∧ handleMessage emptyCluster bid "<@U123> yo".toList chan
          = Outcome.sent Branch.fallback none fallbackReply chan :=
  ⟨by decide, by decide, by decide, by decide,
    (C5_priority_single_reply emptyCluster bid "<@U123> yo".toList chan
        (by decide)).2.2.2.2 (by decide) (by decide) (by decide)⟩

/-- C1 (corrected claim counterexample): the plain "get deploy -n X" /
"get po -n X" forms, with the mention present but without the k/kubectl
lead-in that both compiled patterns demand, match neither regexp, issue
no orchestration query, and fall through to the fallback arm. -/
theorem C1_counterexample :
    deployMatchString "<@U123> get deploy -n prod".toList = false
      ∧ podMatchString "<@U123> get po -n prod".toList = false
      ∧ (handleMessage prodCluster bid "<@U123> get deploy -n prod".toList chan).branch
          = some Branch.fallback
      ∧ (handleMessage prodCluster bid "<@U123> get deploy -n prod".toList chan).queries = []
      ∧ (handleMessage prodCluster bid "<@U123> get po -n prod".toList chan).branch
          = some Branch.fallback
      ∧ (handleMessage prodCluster bid "<@U123> get po -n prod".toList chan).queries = [] := by
  decide

/-- C1 (amended): with the k/kubectl lead-in the compiled patterns
demand, every addressed "kubectl get deploy(ment)(s) -n X" text (X
newline-free, since RE2 `.` stops at a newline) is classified as a
workload-list command whose extracted namespace is exactly the greedy
trailing substring X, and every addressed "kubectl get po(d)(s) -n X"
text that does not itself contain a workload-pattern match is dispatched
to the pod-list arm with the same extraction. -/
theorem C1_ns_extraction (cl : Cluster) (ch X : List Char) (hX : '\n' ∉ X) :
    (deployNs ("<@U123> kubectl get deploy -n ".toList ++ X) = X
      ∧ (handleMessage cl bid ("<@U123> kubectl get deploy -n ".toList ++ X) ch).branch = some Branch.deployments
      ∧ (handleMessage cl bid ("<@U123> kubectl get deploy -n ".toList ++ X) ch).queries = [Query.listDeployments X])
    ∧ (deployNs ("<@U123> kubectl get deployment -n ".toList ++ X) = X
      ∧ (handleMessage cl bid ("<@U123> kubectl get deployment -n ".toList ++ X) ch).branch = some Branch.deployments
      ∧ (handleMessage cl bid ("<@U123> kubectl get deployment -n ".toList ++ X) ch).queries = [Query.listDeployments X])
    ∧ (deployNs ("<@U123> kubectl get deployments -n ".toList ++ X) = X
      ∧ (handleMessage cl bid ("<@U123> kubectl get deployments -n ".toList ++ X) ch).branch = some Branch.deployments
      ∧ (handleMessage cl bid ("<@U123> kubectl get deployments -n ".toList ++ X) ch).queries = [Query.listDeployments X])
    ∧ (deployNs ("<@U123> k get deploy -n ".toList ++ X) = X
      ∧ (handleMessage cl bid ("<@U123> k get deploy -n ".toList ++ X) ch).branch = some Branch.deployments
      ∧ (handleMessage cl bid ("<@U123> k get deploy -n ".toList ++ X) ch).queries = [Query.listDeployments X])
    ∧ (findDeploy X = none →
      (podNs ("<@U123> kubectl get po -n ".toList ++ X) = X
        ∧ (handleMessage cl bid ("<@U123> kubectl get po -n ".toList ++ X) ch).branch = some Branch.pods
        ∧ (handleMessage cl bid ("<@U123> kubectl get po -n ".toList ++ X) ch).queries = [Query.listPods X])
      ∧ (podNs ("<@U123> kubectl get pod -n ".toList ++ X) = X
        ∧ (handleMessage cl bid ("<@U123> kubectl get pod -n ".toList ++ X) ch).branch = some Branch.pods
        ∧ (handleMessage cl bid ("<@U123> kubectl get pod -n ".toList ++ X) ch).queries = [Query.listPods X])
      ∧ (podNs ("<@U123> kubectl get pods -n ".toList ++ X) = X
        ∧ (handleMessage cl bid ("<@U123> kubectl get pods -n ".toList ++ X) ch).branch = some Branch.pods
        ∧ (handleMessage cl bid ("<@U123> kubectl get pods -n ".toList ++ X) ch).queries = [Query.listPods X])
      ∧ (podNs ("<@U123> k get po -n ".toList ++ X) = X
        ∧ (handleMessage cl bid ("<@U123> k get po -n ".toList ++ X) ch).branch = some Branch.pods
        ∧ (handleMessage cl bid ("<@U123> k get po -n ".toList ++ X) ch).queries = [Query.listPods X])) := by
  have hm1 : containsSub ("<@U123> kubectl get deploy -n ".toList ++ X) (botTag bid) = true := by
    simp [containsSub, consume, botTag, bid]
  have hf1 : findDeploy ("<@U123> kubectl get deploy -n ".toList ++ X)
      = some ["kubectl get deploy -n ".toList ++ X, "ubectl".toList, ([] : List Char), ([] : List Char), X] := by
    simp [findDeploy, deployAt, consume, consumeOpt, takeWhile_no_newline X hX]
  have hbq1 := handleMessage_deploy_bq cl bid ("<@U123> kubectl get deploy -n ".toList ++ X) ch _ _ _ _ _ hm1 hf1
  have hm2 : containsSub ("<@U123> kubectl get deployment -n ".toList ++ X) (botTag bid) = true := by
    simp [containsSub, consume, botTag, bid]
  have hf2 : findDeploy ("<@U123> kubectl get deployment -n ".toList ++ X)
      = some ["kubectl get deployment -n ".toList ++ X, "ubectl".toList, "ment".toList, ([] : List Char), X] := by
    simp [findDeploy, deployAt, consume, consumeOpt, takeWhile_no_newline X hX]
  have hbq2 := handleMessage_deploy_bq cl bid ("<@U123> kubectl get deployment -n ".toList ++ X) ch _ _ _ _ _ hm2 hf2
  have hm3 : containsSub ("<@U123> kubectl get deployments -n ".toList ++ X) (botTag bid) = true := by
    simp [containsSub, consume, botTag, bid]
  have hf3 : findDeploy ("<@U123> kubectl get deployments -n ".toList ++ X)
      = some ["kubectl get deployments -n ".toList ++ X, "ubectl".toList, "ment".toList, "s".toList, X] := by
    simp [findDeploy, deployAt, consume, consumeOpt, takeWhile_no_newline X hX]
  have hbq3 := handleMessage_deploy_bq cl bid ("<@U123> kubectl get deployments -n ".toList ++ X) ch _ _ _ _ _ hm3 hf3
  have hm4 : containsSub ("<@U123> k get deploy -n ".toList ++ X) (botTag bid) = true := by
    simp [containsSub, consume, botTag, bid]
  have hf4 : findDeploy ("<@U123> k get deploy -n ".toList ++ X)
      = some ["k get deploy -n ".toList ++ X, ([] : List Char), ([] : List Char), ([] : List Char), X] := by
    simp [findDeploy, deployAt, consume, consumeOpt, takeWhile_no_newline X hX]
  have hbq4 := handleMessage_deploy_bq cl bid ("<@U123> k get deploy -n ".toList ++ X) ch _ _ _ _ _ hm4 hf4
  refine ⟨⟨deployNs_eq _ _ _ _ _ _ hf1, hbq1.1, hbq1.2⟩,
    ⟨deployNs_eq _ _ _ _ _ _ hf2, hbq2.1, hbq2.2⟩,
    ⟨deployNs_eq _ _ _ _ _ _ hf3, hbq3.1, hbq3.2⟩,
    ⟨deployNs_eq _ _ _ _ _ _ hf4, hbq4.1, hbq4.2⟩, ?_⟩
  intro hD
  have hm5 : containsSub ("<@U123> kubectl get po -n ".toList ++ X) (botTag bid) = true := by
    simp [containsSub, consume, botTag, bid]
  have hd5 : findDeploy ("<@U123> kubectl get po -n ".toList ++ X) = none := by
    have hstep : findDeploy ("<@U123> kubectl get po -n ".toList ++ X) = findDeploy X := by
      simp [findDeploy, deployAt, consume, consumeOpt]
    rw [hstep, hD]
  have hf5 : findPod ("<@U123> kubectl get po -n ".toList ++ X)
      = some ["kubectl get po -n ".toList ++ X, "ubectl".toList, ([] : List Char), ([] : List Char), X] := by
    simp [findPod, podAt, consume, consumeOpt, takeWhile_no_newline X hX]
  have hbq5 := handleMessage_pod_bq cl bid ("<@U123> kubectl get po -n ".toList ++ X) ch _ _ _ _ _ hm5 hd5 hf5
  have hm6 : containsSub ("<@U123> kubectl get pod -n ".toList ++ X) (botTag bid) = true := by
    simp [containsSub, consume, botTag, bid]
  have hd6 : findDeploy ("<@U123> kubectl get pod -n ".toList ++ X) = none := by
    have hstep : findDeploy ("<@U123> kubectl get pod -n ".toList ++ X) = findDeploy X := by
      simp [findDeploy, deployAt, consume, consumeOpt]
    rw [hstep, hD]
  have hf6 : findPod ("<@U123> kubectl get pod -n ".toList ++ X)
      = some ["kubectl get pod -n ".toList ++ X, "ubectl".toList, "d".toList, ([] : List Char), X] := by
    simp [findPod, podAt, consume, consumeOpt, takeWhile_no_newline X hX]
  have hbq6 := handleMessage_pod_bq cl bid ("<@U123> kubectl get pod -n ".toList ++ X) ch _ _ _ _ _ hm6 hd6 hf6
  have hm7 : containsSub ("<@U123> kubectl get pods -n ".toList ++ X) (botTag bid) = true := by
    simp [containsSub, consume, botTag, bid]
  have hd7 : findDeploy ("<@U123> kubectl get pods -n ".toList ++ X) = none := by
    have hstep : findDeploy ("<@U123> kubectl get pods -n ".toList ++ X) = findDeploy X := by
      simp [findDeploy, deployAt, consume, consumeOpt]
    rw [hstep, hD]
  have hf7 : findPod ("<@U123> kubectl get pods -n ".toList ++ X)
      = some ["kubectl get pods -n ".toList ++ X, "ubectl".toList, "d".toList, "s".toList, X] := by
    simp [findPod, podAt, consume, consumeOpt, takeWhile_no_newline X hX]
  have hbq7 := handleMessage_pod_bq cl bid ("<@U123> kubectl get pods -n ".toList ++ X) ch _ _ _ _ _ hm7 hd7 hf7
  have hm8 : containsSub ("<@U123> k get po -n ".toList ++ X) (botTag bid) = true := by
    simp [containsSub, consume, botTag, bid]
  have hd8 : findDeploy ("<@U123> k get po -n ".toList ++ X) = none := by
    have hstep : findDeploy ("<@U123> k get po -n ".toList ++ X) = findDeploy X := by
      simp [findDeploy, deployAt, consume, consumeOpt]
    rw [hstep, hD]
  have hf8 : findPod ("<@U123> k get po -n ".toList ++ X)
      = some ["k get po -n ".toList ++ X, ([] : List Char), ([] : List Char), ([] : List Char), X] := by
    simp [findPod, podAt, consume, consumeOpt, takeWhile_no_newline X hX]
  have hbq8 := handleMessage_pod_bq cl bid ("<@U123> k get po -n ".toList ++ X) ch _ _ _ _ _ hm8 hd8 hf8
  exact ⟨⟨podNs_eq _ _ _ _ _ _ hf5, hbq5.1, hbq5.2⟩,
    ⟨podNs_eq _ _ _ _ _ _ hf6, hbq6.1, hbq6.2⟩,
    ⟨podNs_eq _ _ _ _ _ _ hf7, hbq7.1, hbq7.2⟩,
    ⟨podNs_eq _ _ _ _ _ _ hf8, hbq8.1, hbq8.2⟩⟩

/-- C1 witness at X = "prod" against the mocked cluster. -/
theorem C1_witness :
    ('\n' ∉ "prod".toList) ∧ findDeploy "prod".toList = none
      ∧ deployNs ("<@U123> kubectl get deploy -n ".toList ++ "prod".toList) = "prod".toList
      ∧ (handleMessage prodCluster bid
            ("<@U123> kubectl get deploy -n ".toList ++ "prod".toList) chan).queries
          = [Query.listDeployments "prod".toList]
      ∧ podNs ("<@U123> kubectl get po -n ".toList ++ "prod".toList) = "prod".toList :=
  ⟨by decide, by decide,
    (C1_ns_extraction prodCluster chan "prod".toList (by decide)).1.1,
    (C1_ns_extraction prodCluster chan "prod".toList (by decide)).1.2.2,
    ((C1_ns_extraction prodCluster chan "prod".toList (by decide)).2.2.2.2 (by decide)).1.1⟩

/-- C2 (corrected claim counterexample): with the mocked cluster
answering namespace "prod" with {"api", "worker"}, the plain
"<@U123> get deploy -n prod" message never reaches the deploy arm: it
gets the fallback reply, not the fenced listing. -/
theorem C2_counterexample :
    handleMessage prodCluster bid "<@U123> get deploy -n prod".toList chan
        = Outcome.sent Branch.fallback none fallbackReply chan
      ∧ fallbackReply ≠ "```\napi\nworker\n```".toList := by
  decide

/-- C2 (amended): with the kubectl lead-in, the reply is exactly one
fenced block whose content is "api\nworker\n", sent to the arriving
channel. -/
theorem C2_fenced_listing :
    handleMessage prodCluster bid "<@U123> kubectl get deploy -n prod".toList chan
        = Outcome.sent Branch.deployments (some (Query.listDeployments "prod".toList))
            "```\napi\nworker\n```".toList chan
      ∧ (handleMessage prodCluster bid
            "<@U123> kubectl get deploy -n prod".toList chan).replies
          = [("```\napi\nworker\n```".toList, chan)] := by
  decide

/-- C3 (corrected claim counterexample): for a pod whose declared
container count (3) differs from its container-status count (2), the
printed line uses the status count, not the declared count the claim
names. -/
theorem C3_counterexample :
    podLine laggingPod = "api-1\tRunning\t2/2\n".toList
      ∧ claimedPodLine laggingPod = "api-1\tRunning\t2/3\n".toList
      ∧ podLine laggingPod ≠ claimedPodLine laggingPod := by
  decide

/-- C3 (amended): each pod reply line is name, tab, phase, tab,
running/total with total the container-status count; when every declared
container has a status the two counts agree and the claimed line holds,
and the concrete "2 of 3 running" pod prints exactly
"api-1\tRunning\t2/3". -/
theorem C3_pod_line (po : Pod) :
    podLine po
        = po.name ++ "\t".toList ++ po.status.phase ++ "\t".toList
            ++ itoa (runningContainers po) ++ "/".toList
            ++ itoa po.status.containerStatuses.length ++ "\n".toList
      ∧ (po.spec.containers = po.status.containerStatuses.length →
          podLine po = claimedPodLine po)
      ∧ podsReply [apiPod] = "```\napi-1\tRunning\t2/3\n```".toList := by
  refine ⟨rfl, ?_, by decide⟩
  intro hs
  simp [podLine, claimedPodLine, hs]

/-- C3 witness: the fully-statused concrete pod satisfies the proviso
and prints the claimed line. -/
theorem C3_witness :
    apiPod.spec.containers = apiPod.status.containerStatuses.length
      ∧ podLine apiPod = claimedPodLine apiPod :=
  ⟨by decide, (C3_pod_line apiPod).2.1 (by decide)⟩

/-- C5 (corrected claim counterexample): an addressed deploy command
whose list call fails produces zero replies, not exactly one. -/
theorem C5_counterexample :
    containsSub "<@U123> kubectl get deploy -n prod".toList (botTag bid) = true
      ∧ (handleMessage errCluster bid
            "<@U123> kubectl get deploy -n prod".toList chan).replies = [] := by
  decide

end Mibot
